import Mathlib

/-!
Verification of the Genelec Smart IP Home-Assistant integration
(`custom_components/genelec`): a shallow embedding of the polling
coordinator (`__init__.py::async_update_data`), the device request layer
(`device.py::GenelecSmartIPDevice._request`), the media-player volume and
source logic (`media_player.py`), the optimistic cache patches
(`select.py`, `switch.py`, the `set_led_intensity` and `restore_profile`
services), and theorems about them.

JSON dictionaries are modelled as association lists over a primitive
value type.  Python dict assignment `d[k] = v` replaces the first binding
of `k` in place (or appends), which `insertKey` mirrors; Python dict
truthiness (`if not d`) is `List.isEmpty`.  HTTP activity is modelled as
an event trace: the device layer's `_request` emits
acquire / http / release for the shared `asyncio.Lock`, and every fetch
outcome is supplied by an environment `Env` mapping each endpoint to
`Except Unit Obj` (an exception or a parsed JSON body).
-/

namespace Genelec

/-- Primitive JSON values appearing in the payloads the integration
handles: strings, integers, booleans, and lists of strings (the
`input` array of `/audio/inputs`). -/
inductive Prim where
  | str : String → Prim
  | int : Int → Prim
  | bool : Bool → Prim
  | strs : List String → Prim
deriving DecidableEq

/-- A JSON object: an ordered association list, as Python dicts are. -/
abbrev Obj := List (String × Prim)

/-- The coordinator payload: a dict from the twelve top-level keys to
JSON objects. -/
abbrev Payload := List (String × Obj)

/-- Python `d.get(k)` / `d[k]` lookup on an association list. -/
def lookupKey {α : Type} : List (String × α) → String → Option α
  | [], _ => none
  | (k, v) :: rest, key => if k = key then some v else lookupKey rest key

/-- Python `d[k] = v`: replace the first binding of `k` in place, or
append a new binding at the end (insertion order is preserved). -/
def insertKey {α : Type} : List (String × α) → String → α → List (String × α)
  | [], key, v => [(key, v)]
  | (k, w) :: rest, key, v =>
      if k = key then (key, v) :: rest else (k, w) :: insertKey rest key v

/-- Python `d.update(patch)`: apply every binding of `patch` in order. -/
def updateObj (d : Obj) (patch : Obj) : Obj :=
  patch.foldl (fun acc kv => insertKey acc kv.1 kv.2) d

/-- Python `data.get(k, {})` on the coordinator payload. -/
def dictGet (data : Payload) (k : String) : Obj :=
  (lookupKey data k).getD []

/-- HTTP method of a device request. -/
inductive Method where
  | GET : Method
  | PUT : Method
deriving DecidableEq

/-- The device REST endpoints the integration talks to
(`const.py::ENDPOINT_*`). -/
inductive Ep where
  | volume : Ep
  | power : Ep
  | inputs : Ep
  | events : Ep
  | deviceInfo : Ep
  | deviceId : Ep
  | led : Ep
  | networkIpv4 : Ep
  | aoipIpv4 : Ep
  | aoipIdentity : Ep
  | zoneInfo : Ep
  | profileList : Ep
  | profileRestore : Ep
deriving DecidableEq

/-- Events of the shared-lock trace: acquiring the single
`asyncio.Lock`, performing one HTTP request on the shared session, and
releasing the lock. -/
inductive Ev where
  | acquire : Ev
  | release : Ev
  | http : Method → Ep → Ev
deriving DecidableEq

/-- Trace of `GenelecSmartIPDevice._request`: the method body is exactly
`async with self._lock: <one session.request>`, so one request emits
acquire, the HTTP call, release — also when the response status raises,
since `async with` releases the lock on the way out. -/
def request (m : Method) (e : Ep) : List Ev :=
  [Ev.acquire, Ev.http m e, Ev.release]

/-- The endpoints hit by the HTTP events of a trace, in order. -/
def httpEps : List Ev → List Ep
  | [] => []
  | Ev.http _ e :: rest => e :: httpEps rest
  | _ :: rest => httpEps rest

/-- A trace is lock-serialized when it is a sequence of complete
critical sections, each holding the single shared lock for the whole
duration of exactly one HTTP request: the lock is acquired before the
session is used, released after, never re-entered, and no request
happens outside it. -/
inductive LockSerialized : List Ev → Prop where
  | nil : LockSerialized []
  | block (m : Method) (e : Ep) (rest : List Ev) :
      LockSerialized rest →
      LockSerialized (Ev.acquire :: Ev.http m e :: Ev.release :: rest)

/-- Outcome environment for one poll cycle: what each endpoint fetch
would return (a parsed body, or an exception). -/
abbrev Env := Ep → Except Unit Obj

/-- Whether a fetch outcome is an exception. -/
def isErr : Except Unit Obj → Bool
  | Except.error _ => true
  | Except.ok _ => false

/-! Device write methods (`device.py`), as the traces they emit.
`set_volume` and `set_led_settings` send nothing when every optional
argument is `None` (`if not data: return {}`). -/

/-- Trace of `GenelecSmartIPDevice.set_volume`. -/
def set_volume (level : Option ℚ) (mute : Option Bool) : List Ev :=
  match level, mute with
  | none, none => []
  | _, _ => request Method.PUT Ep.volume

/-- Trace of `GenelecSmartIPDevice.set_inputs` (always sends). -/
def set_inputs (_inputs : List String) : List Ev :=
  request Method.PUT Ep.inputs

/-- Trace of `GenelecSmartIPDevice.set_power_state`. -/
def set_power_state (_state : String) : List Ev :=
  request Method.PUT Ep.power

/-- Trace of `GenelecSmartIPDevice.set_led_settings`. -/
def set_led_settings (led_intensity : Option Int) (rj45_leds : Option Bool)
    (hide_clip : Option Bool) : List Ev :=
  match led_intensity, rj45_leds, hide_clip with
  | none, none, none => []
  | _, _, _ => request Method.PUT Ep.led

/-- Trace of `GenelecSmartIPDevice.restore_profile`. -/
def restore_profile (_profile_id : Int) (_startup : Bool) : List Ev :=
  request Method.PUT Ep.profileRestore

/-- The mutable fields of `GenelecSmartIPData` the coordinator reads and
writes (`__init__.py` lines 65-88). -/
structure DataSt where
  volume_data : Obj
  power_data : Obj
  inputs_data : Obj
  events_data : Obj
  device_info : Obj
  device_id : Obj
  led_data : Obj
  led_initialized : Bool
  network_config : Obj
  aoip_ipv4 : Obj
  aoip_identity : Obj
  zone_info : Obj
  profile_list : Obj
  poll_tick : Nat
deriving DecidableEq

/-- The twelve-key payload built purely from the shared caches — what
the exception handlers of `async_update_data` return. -/
def cachedPayload (st : DataSt) : Payload :=
  [("volume", st.volume_data), ("power", st.power_data),
   ("inputs", st.inputs_data), ("events", st.events_data),
   ("device_info", st.device_info), ("device_id", st.device_id),
   ("led", st.led_data), ("network_ipv4", st.network_config),
   ("aoip_ipv4", st.aoip_ipv4), ("aoip_identity", st.aoip_identity),
   ("zone_info", st.zone_info), ("profile_list", st.profile_list)]

/-- The payload the success path returns: the four core values are the
local variables of the cycle, the rest come from the shared caches. -/
def freshPayload (volume_data power_data inputs_data events_data : Obj)
    (st : DataSt) : Payload :=
  [("volume", volume_data), ("power", power_data),
   ("inputs", inputs_data), ("events", events_data),
   ("device_info", st.device_info), ("device_id", st.device_id),
   ("led", st.led_data), ("network_ipv4", st.network_config),
   ("aoip_ipv4", st.aoip_ipv4), ("aoip_identity", st.aoip_identity),
   ("zone_info", st.zone_info), ("profile_list", st.profile_list)]

/-- The events fetch condition of the cycle, on the already-incremented
tick: `data.poll_tick % 3 == 0 or not data.events_data`. -/
def eventsDue (st : DataSt) : Bool :=
  st.poll_tick % 3 == 0 || st.events_data.isEmpty

/-- One guarded rarely-changing fetch of `async_update_data`: when the
cache guard says a fetch is needed, issue the request; on success store
the body via `onOk`, on an exception run the `onErr` fallback and keep
going (the per-endpoint `try/except`). -/
def guardedFetch (needed : DataSt → Bool) (ep : Ep)
    (onOk : DataSt → Obj → DataSt) (onErr : DataSt → DataSt)
    (st : DataSt) (env : Env) : DataSt × List Ev :=
  if needed st then
    match env ep with
    | Except.ok d => (onOk st d, request Method.GET ep)
    | Except.error _ => (onErr st, request Method.GET ep)
  else (st, [])

/-- `if not data.device_info: try: data.device_info = await
device.get_device_info() except: pass` (cache left alone on failure). -/
def stepDeviceInfo : DataSt → Env → DataSt × List Ev :=
  guardedFetch (fun st => st.device_info.isEmpty) Ep.deviceInfo
    (fun st d => { st with device_info := d }) (fun st => st)

/-- The analogous once-only fetch of `/device/id`. -/
def stepDeviceId : DataSt → Env → DataSt × List Ev :=
  guardedFetch (fun st => st.device_id.isEmpty) Ep.deviceId
    (fun st d => { st with device_id := d }) (fun st => st)

/-- The LED fetch: guarded by the `led_initialized` flag, which is set
after the first attempt whether or not it succeeded. -/
def stepLed : DataSt → Env → DataSt × List Ev :=
  guardedFetch (fun st => !st.led_initialized) Ep.led
    (fun st d => { st with led_data := d, led_initialized := true })
    (fun st => { st with led_initialized := true })

/-- The `/network/ipv4` fetch; the `except` branch assigns `{}`. -/
def stepNetwork : DataSt → Env → DataSt × List Ev :=
  guardedFetch (fun st => st.network_config.isEmpty) Ep.networkIpv4
    (fun st d => { st with network_config := d })
    (fun st => { st with network_config := [] })

/-- The `/aoip/ipv4` fetch; the `except` branch assigns `{}`. -/
def stepAoipIpv4 : DataSt → Env → DataSt × List Ev :=
  guardedFetch (fun st => st.aoip_ipv4.isEmpty) Ep.aoipIpv4
    (fun st d => { st with aoip_ipv4 := d })
    (fun st => { st with aoip_ipv4 := [] })

/-- The `/aoip/dante/identity` fetch; the `except` branch assigns `{}`. -/
def stepAoipIdentity : DataSt → Env → DataSt × List Ev :=
  guardedFetch (fun st => st.aoip_identity.isEmpty) Ep.aoipIdentity
    (fun st d => { st with aoip_identity := d })
    (fun st => { st with aoip_identity := [] })

/-- The `/network/zone` fetch; the `except` branch assigns `{}`. -/
def stepZone : DataSt → Env → DataSt × List Ev :=
  guardedFetch (fun st => st.zone_info.isEmpty) Ep.zoneInfo
    (fun st d => { st with zone_info := d })
    (fun st => { st with zone_info := [] })

/-- The `/profile/list` fetch; the `except` branch assigns `{}`. -/
def stepProfileList : DataSt → Env → DataSt × List Ev :=
  guardedFetch (fun st => st.profile_list.isEmpty) Ep.profileList
    (fun st d => { st with profile_list := d })
    (fun st => { st with profile_list := [] })

/-- The rarely-changing section of the poll cycle (`__init__.py` lines
170-234): the eight guarded fetches, in source order. -/
def pollRare (st : DataSt) (env : Env) : DataSt × List Ev :=
  let r1 := stepDeviceInfo st env
  let r2 := stepDeviceId r1.1 env
  let r3 := stepLed r2.1 env
  let r4 := stepNetwork r3.1 env
  let r5 := stepAoipIpv4 r4.1 env
  let r6 := stepAoipIdentity r5.1 env
  let r7 := stepZone r6.1 env
  let r8 := stepProfileList r7.1 env
  (r8.1, r1.2 ++ r2.2 ++ r3.2 ++ r4.2 ++ r5.2 ++ r6.2 ++ r7.2 ++ r8.2)

/-- Tail of the success path of the cycle: store the four fresh core
values into the shared caches (lines 160 and 165-168), run the guarded
section, and return the merged payload (lines 236-249). -/
def pollFinish (st : DataSt) (volume_data power_data inputs_data events_data : Obj)
    (tr : List Ev) (env : Env) : DataSt × Payload × List Ev :=
  let st := { st with volume_data := volume_data, power_data := power_data,
                      inputs_data := inputs_data, events_data := events_data }
  let r := pollRare st env
  (r.1, freshPayload volume_data power_data inputs_data events_data r.1, tr ++ r.2)

/-- The coordinator update function (`__init__.py::async_update_data`).
The tick is incremented, then volume, power state and inputs are fetched
unguarded; events is fetched when `eventsDue` and reused from cache
otherwise.  An exception in any of those four fetches lands in the
outer `except` handlers, which catch it (the function never raises),
log, and return the last-known cached values for all twelve fields.
Returns the new shared state, the payload handed to the coordinator,
and the emitted lock/HTTP trace. -/
def async_update_data (st0 : DataSt) (env : Env) : DataSt × Payload × List Ev :=
  let st := { st0 with poll_tick := st0.poll_tick + 1 }
  match env Ep.volume with
  | Except.error _ => (st, cachedPayload st, request Method.GET Ep.volume)
  | Except.ok volume_data =>
    match env Ep.power with
    | Except.error _ =>
        (st, cachedPayload st,
         request Method.GET Ep.volume ++ request Method.GET Ep.power)
    | Except.ok power_data =>
      match env Ep.inputs with
      | Except.error _ =>
          (st, cachedPayload st,
           request Method.GET Ep.volume ++ request Method.GET Ep.power ++
           request Method.GET Ep.inputs)
      | Except.ok inputs_data =>
        if eventsDue st then
          match env Ep.events with
          | Except.error _ =>
              (st, cachedPayload st,
               request Method.GET Ep.volume ++ request Method.GET Ep.power ++
               request Method.GET Ep.inputs ++ request Method.GET Ep.events)
          | Except.ok events_data =>
              pollFinish st volume_data power_data inputs_data events_data
                (request Method.GET Ep.volume ++ request Method.GET Ep.power ++
                 request Method.GET Ep.inputs ++ request Method.GET Ep.events) env
        else
          pollFinish st volume_data power_data inputs_data st.events_data
            (request Method.GET Ep.volume ++ request Method.GET Ep.power ++
             request Method.GET Ep.inputs) env

/-- The cycle takes an exception-handler exit exactly when one of the
four unguarded fetches fails (events only counts when it was due). -/
def coreAborts (st0 : DataSt) (env : Env) : Bool :=
  isErr (env Ep.volume) || isErr (env Ep.power) || isErr (env Ep.inputs) ||
  (((st0.poll_tick + 1) % 3 == 0 || st0.events_data.isEmpty) && isErr (env Ep.events))

/-- The fixed request order of a poll cycle. -/
def pollOrder : List Ep :=
  [Ep.volume, Ep.power, Ep.inputs, Ep.events, Ep.deviceInfo, Ep.deviceId,
   Ep.led, Ep.networkIpv4, Ep.aoipIpv4, Ep.aoipIdentity, Ep.zoneInfo,
   Ep.profileList]

/-! Media player (`media_player.py`). -/

/-- Home-Assistant media-player state as this integration sets it. -/
inductive MediaPlayerState where
  | on : MediaPlayerState
  | off : MediaPlayerState
deriving DecidableEq

/-- `const.py::INPUT_API_TO_DISPLAY`. -/
def INPUT_API_TO_DISPLAY : List (String × String) :=
  [("A", "Analog"), ("AoIP01", "AoIP 01"), ("AoIP02", "AoIP 02")]

/-- `const.py::INPUT_DISPLAY_TO_API` (the inverted dict, in insertion
order). -/
def INPUT_DISPLAY_TO_API : List (String × String) :=
  INPUT_API_TO_DISPLAY.map (fun p => (p.2, p.1))

/-- The media player's fixed source list. -/
def source_list : List String :=
  ["No Input", "Analog", "AoIP 01", "AoIP 02", "Mix"]

/-- The API source array `async_select_source(source)` sends: empty for
No Input, all API inputs for Mix, a singleton otherwise. -/
def select_source_api_sources (source : String) : List String :=
  if source = "No Input" then []
  else if source = "Mix" then INPUT_DISPLAY_TO_API.map Prod.snd
  else [(lookupKey INPUT_DISPLAY_TO_API source).getD source]

/-- `_sources_to_display`: empty list shows No Input, more than one
entry shows Mix, a singleton shows its display name. -/
def sources_to_display (api_sources : List String) : String :=
  if api_sources.isEmpty then "No Input"
  else if 1 < api_sources.length then "Mix"
  else (lookupKey INPUT_API_TO_DISPLAY (api_sources.headD "")).getD
    (api_sources.headD "")

/-- The power state `async_update` reads from the coordinator payload:
`power_data.get("state", POWER_STATE_STANDBY)`. -/
def update_power_state (payload : Payload) : Prim :=
  (lookupKey (dictGet payload "power") "state").getD (Prim.str "STANDBY")

/-- The `_attr_state` that `async_update` computes: ON exactly when the
power state string is ACTIVE. -/
def update_attr_state (payload : Payload) : MediaPlayerState :=
  if update_power_state payload = Prim.str "ACTIVE" then MediaPlayerState.on
  else MediaPlayerState.off

/-- The power state after `_init_from_coordinator_data`: when the power
dict is falsy the constructor default `POWER_STATE_ACTIVE` survives;
otherwise `power_data.get("state", POWER_STATE_ACTIVE)`. -/
def init_power_state (payload : Payload) : Prim :=
  let power_data := dictGet payload "power"
  if power_data.isEmpty then Prim.str "ACTIVE"
  else (lookupKey power_data "state").getD (Prim.str "ACTIVE")

/-- The `_attr_state` that `_init_from_coordinator_data` computes. -/
def init_attr_state (payload : Payload) : MediaPlayerState :=
  if init_power_state payload = Prim.str "ACTIVE" then MediaPlayerState.on
  else MediaPlayerState.off

/-! Optimistic cache patches (`select.py`, `switch.py`, `__init__.py`
services) and the service handlers. -/

/-- `GenelecPowerStateSelect._push_power_patch`. -/
def push_power_patch (data : Payload) (state : String) : Payload :=
  insertKey data "power"
    (insertKey (dictGet data "power") "state" (Prim.str state))

/-- `GenelecProfileSelect._push_profile_patch`. -/
def push_profile_patch (data : Payload) (profile_id : Int) : Payload :=
  insertKey data "profile_list"
    (insertKey (dictGet data "profile_list") "selected" (Prim.int profile_id))

/-- `_push_led_patch` of the two LED switches: copy, `led.update(patch)`,
reinsert. -/
def push_led_patch (data : Payload) (patch : Obj) : Payload :=
  insertKey data "led" (updateObj (dictGet data "led") patch)

/-- The cache patch of the `set_led_intensity` service handler. -/
def set_led_intensity_patch (data : Payload) (intensity : Int) : Payload :=
  insertKey data "led"
    (insertKey (dictGet data "led") "ledIntensity" (Prim.int intensity))

/-- The cache patch of the `restore_profile` service handler: set
`selected`, and also `startup` when requested. -/
def restore_profile_patch (data : Payload) (profile_id : Int)
    (startup : Bool) : Payload :=
  let profile := insertKey (dictGet data "profile_list") "selected"
    (Prim.int profile_id)
  let profile := if startup then insertKey profile "startup" (Prim.int profile_id)
    else profile
  insertKey data "profile_list" profile

/-- `select.py::POWER_STATE_OPTION_TO_API`. -/
def POWER_STATE_OPTION_TO_API : List (String × String) :=
  [("active", "ACTIVE"), ("standby", "STANDBY"), ("boot", "BOOT"),
   ("aoipboot", "AOIPBOOT"), ("iss_sleep", "ISS_SLEEP"),
   ("pwr_fail", "PWR_FAIL")]

/-- `select.py::SETTABLE_POWER_STATES`. -/
def SETTABLE_POWER_STATES : List String :=
  ["ACTIVE", "STANDBY", "BOOT", "AOIPBOOT"]

/-- Trace of `GenelecPowerStateSelect.async_select_option`: unknown or
read-only options send nothing. -/
def async_select_option_power (option : String) : List Ev :=
  match lookupKey POWER_STATE_OPTION_TO_API option with
  | none => []
  | some api =>
      if api ∈ SETTABLE_POWER_STATES then set_power_state api else []

/-- The `genelec.set_led_intensity` service handler for one target
entry: clamp to 0..100, send the LED PUT, then patch only the `led` key
of the coordinator cache when it is truthy.  Returns the new cache and
the emitted trace. -/
def handle_set_led_intensity (intensity : Option Int)
    (coordinator_data : Option Payload) : Option Payload × List Ev :=
  match intensity with
  | none => (coordinator_data, [])
  | some i0 =>
    let i := max 0 (min 100 i0)
    let tr := set_led_settings (some i) none none
    match coordinator_data with
    | none => (none, tr)
    | some d =>
        if d.isEmpty then (some d, tr)
        else (some (set_led_intensity_patch d i), tr)

/-- The `genelec.restore_profile` service handler for one target entry:
reject a missing or out-of-range profile id without touching anything,
otherwise send the restore PUT and patch only the `profile_list` key of
a truthy coordinator cache. -/
def handle_restore_profile (profile_id : Option Int) (startup : Bool)
    (coordinator_data : Option Payload) : Option Payload × List Ev :=
  match profile_id with
  | none => (coordinator_data, [])
  | some pid =>
    if pid < 0 ∨ pid > 5 then (coordinator_data, [])
    else
      let tr := restore_profile pid startup
      match coordinator_data with
      | none => (none, tr)
      | some d =>
          if d.isEmpty then (some d, tr)
          else (some (restore_profile_patch d pid startup), tr)

/-! Concrete states, environments and payloads used by the
counterexamples and witnesses below. -/

/-- A stale cached volume body. -/
def objA : Obj := [("level", Prim.int 1)]

/-- A fresh volume body, distinct from `objA`. -/
def objB : Obj := [("level", Prim.int 2)]

/-- A generic non-empty body. -/
def objX : Obj := [("x", Prim.int 0)]

/-- A baseline shared state: every cache non-empty, LED initialized,
tick 0. -/
def baseSt : DataSt :=
  { volume_data := objA, power_data := [("state", Prim.str "ACTIVE")],
    inputs_data := [("input", Prim.strs ["A"])], events_data := objX,
    device_info := objX, device_id := objX, led_data := objX,
    led_initialized := true, network_config := objX, aoip_ipv4 := objX,
    aoip_identity := objX, zone_info := objX, profile_list := objX,
    poll_tick := 0 }

/-- Environment where only the power fetch fails; the volume fetch
succeeds with a fresh body. -/
def envC2 : Env := fun ep =>
  match ep with
  | Ep.power => Except.error ()
  | Ep.volume => Except.ok objB
  | _ => Except.ok objX

/-- State whose zone-info cache is empty (so the zone fetch is due). -/
def stC3 : DataSt := { baseSt with zone_info := [] }

/-- Environment where only the zone-info fetch fails; volume succeeds
with a fresh body. -/
def envC3 : Env := fun ep =>
  match ep with
  | Ep.zoneInfo => Except.error ()
  | Ep.volume => Except.ok objB
  | _ => Except.ok objX

/-- State whose network-config cache is empty. -/
def stC4 : DataSt := { baseSt with network_config := [] }

/-- Environment where only the network-config fetch fails. -/
def envC4 : Env := fun ep =>
  match ep with
  | Ep.networkIpv4 => Except.error ()
  | _ => Except.ok objX

/-- A payload whose power dict is non-empty but has no `state` key. -/
def payloadC7 : Payload := [("power", [("foo", Prim.int 1)])]

/-- State whose device-info cache is empty (so that fetch is due). -/
def stW2 : DataSt := { baseSt with device_info := [] }

/-- Environment where every fetch succeeds with the fresh body `objB`. -/
def envW2 : Env := fun _ => Except.ok objB

/-- Environment where every fetch fails. -/
def envW3 : Env := fun _ => Except.error ()

/-- A concrete coordinator payload used by the patch witnesses. -/
def payloadW : Payload :=
  [("power", [("state", Prim.str "ACTIVE"), ("extra", Prim.int 7)]),
   ("volume", objA),
   ("led", [("rj45Leds", Prim.bool true), ("ledIntensity", Prim.int 50)]),
   ("profile_list", [("selected", Prim.int 0), ("startup", Prim.int 0)])]

/-! Association-list lemmas. -/

/-- Looking up the key just written returns the new value. -/
theorem lookup_insert_self {α : Type} (d : List (String × α)) (k : String) (v : α) :
    lookupKey (insertKey d k v) k = some v := by
  induction d with
  | nil => simp [insertKey, lookupKey]
  | cons hd tl ih =>
    obtain ⟨k0, v0⟩ := hd
    by_cases h : k0 = k
    · simp [insertKey, h, lookupKey]
    · simp [insertKey, h, lookupKey, ih]

/-- Writing one key leaves every other key's binding unchanged. -/
theorem lookup_insert_ne {α : Type} (d : List (String × α)) (k key : String) (v : α)
    (h : key ≠ k) :
    lookupKey (insertKey d k v) key = lookupKey d key := by
  induction d with
  | nil => simp [insertKey, lookupKey, Ne.symm h]
  | cons hd tl ih =>
    obtain ⟨k0, v0⟩ := hd
    by_cases h0 : k0 = k
    · subst h0
      simp [insertKey, lookupKey, Ne.symm h]
    · simp [insertKey, h0, lookupKey, ih]

/-- `d.update(patch)` leaves keys outside the patch unchanged. -/
theorem lookup_updateObj_ne (patch : Obj) (d : Obj) (f : String)
    (h : f ∉ patch.map Prod.fst) :
    lookupKey (updateObj d patch) f = lookupKey d f := by
  induction patch generalizing d with
  | nil => rfl
  | cons hd tl ih =>
    simp only [List.map_cons, List.mem_cons, not_or] at h
    have step : updateObj d (hd :: tl) = updateObj (insertKey d hd.1 hd.2) tl := rfl
    rw [step, ih _ h.2, lookup_insert_ne _ _ _ _ h.1]

/-! Trace lemmas. -/

/-- `httpEps` distributes over trace concatenation. -/
theorem httpEps_append (a b : List Ev) :
    httpEps (a ++ b) = httpEps a ++ httpEps b := by
  induction a with
  | nil => rfl
  | cons hd tl ih => cases hd <;> simp [httpEps, ih]

/-- Lock-serialized traces compose. -/
theorem lockSerialized_append {t1 t2 : List Ev}
    (h1 : LockSerialized t1) (h2 : LockSerialized t2) :
    LockSerialized (t1 ++ t2) := by
  induction h1 with
  | nil => exact h2
  | block m e rest _ ih => exact LockSerialized.block m e _ ih

/-- A single `_request` trace is lock-serialized. -/
theorem lockSerialized_request (m : Method) (e : Ep) :
    LockSerialized (request m e) :=
  LockSerialized.block m e [] LockSerialized.nil

/-- Every guarded fetch emits a lock-serialized trace. -/
theorem guardedFetch_serial (needed : DataSt → Bool) (ep : Ep)
    (onOk : DataSt → Obj → DataSt) (onErr : DataSt → DataSt)
    (st : DataSt) (env : Env) :
    LockSerialized (guardedFetch needed ep onOk onErr st env).2 := by
  unfold guardedFetch
  split
  · cases env ep with
    | ok d => exact lockSerialized_request _ _
    | error u => exact lockSerialized_request _ _
  · exact LockSerialized.nil

/-- A guarded fetch hits its own endpoint at most once. -/
theorem guardedFetch_httpEps (needed : DataSt → Bool) (ep : Ep)
    (onOk : DataSt → Obj → DataSt) (onErr : DataSt → DataSt)
    (st : DataSt) (env : Env) :
    List.Sublist (httpEps (guardedFetch needed ep onOk onErr st env).2) [ep] := by
  unfold guardedFetch
  split
  · cases env ep with
    | ok d => exact List.Sublist.refl _
    | error u => exact List.Sublist.refl _
  · exact List.nil_sublist _

/-- The rarely-changing section emits a lock-serialized trace. -/
theorem pollRare_serial (st : DataSt) (env : Env) :
    LockSerialized (pollRare st env).2 := by
  simp only [pollRare]
  refine lockSerialized_append (lockSerialized_append (lockSerialized_append
    (lockSerialized_append (lockSerialized_append (lockSerialized_append
    (lockSerialized_append ?_ ?_) ?_) ?_) ?_) ?_) ?_) ?_ <;>
    exact guardedFetch_serial _ _ _ _ _ _

/-- The rarely-changing section's requests are an ordered subsequence
of the fixed rare-endpoint order. -/
theorem pollRare_httpEps (st : DataSt) (env : Env) :
    List.Sublist (httpEps (pollRare st env).2)
      [Ep.deviceInfo, Ep.deviceId, Ep.led, Ep.networkIpv4, Ep.aoipIpv4,
       Ep.aoipIdentity, Ep.zoneInfo, Ep.profileList] := by
  simp only [pollRare, httpEps_append]
  exact ((((((((guardedFetch_httpEps _ _ _ _ _ _).append
    (guardedFetch_httpEps _ _ _ _ _ _)).append
    (guardedFetch_httpEps _ _ _ _ _ _)).append
    (guardedFetch_httpEps _ _ _ _ _ _)).append
    (guardedFetch_httpEps _ _ _ _ _ _)).append
    (guardedFetch_httpEps _ _ _ _ _ _)).append
    (guardedFetch_httpEps _ _ _ _ _ _)).append
    (guardedFetch_httpEps _ _ _ _ _ _))

/-- The whole poll cycle emits a lock-serialized trace, in every state
and for every combination of fetch outcomes. -/
theorem poll_trace_serial (st : DataSt) (env : Env) :
    LockSerialized (async_update_data st env).2.2 := by
  simp only [async_update_data]
  cases env Ep.volume with
  | error u => exact lockSerialized_request _ _
  | ok v =>
    cases env Ep.power with
    | error u =>
      exact lockSerialized_append (lockSerialized_request _ _)
        (lockSerialized_request _ _)
    | ok p =>
      cases env Ep.inputs with
      | error u =>
        exact lockSerialized_append (lockSerialized_append
          (lockSerialized_request _ _) (lockSerialized_request _ _))
          (lockSerialized_request _ _)
      | ok i =>
        dsimp only
        split
        · cases env Ep.events with
          | error u =>
            exact lockSerialized_append (lockSerialized_append
              (lockSerialized_append (lockSerialized_request _ _)
                (lockSerialized_request _ _)) (lockSerialized_request _ _))
              (lockSerialized_request _ _)
          | ok e =>
            exact lockSerialized_append (lockSerialized_append
              (lockSerialized_append (lockSerialized_append
                (lockSerialized_request _ _) (lockSerialized_request _ _))
                (lockSerialized_request _ _)) (lockSerialized_request _ _))
              (pollRare_serial _ _)
        · exact lockSerialized_append (lockSerialized_append
            (lockSerialized_append (lockSerialized_request _ _)
              (lockSerialized_request _ _)) (lockSerialized_request _ _))
            (pollRare_serial _ _)

/-- C1: every outbound HTTP request — from the coordinator poll cycle
and from every entity action and service that talks to the device —
goes through `_request`, which acquires the single shared lock before
using the shared session and holds it for the whole request, so the
emitted trace is a sequence of complete one-request critical sections
and at most one request to the device is in flight at any time. -/
theorem genelec_C1 (st0 : DataSt) (env : Env) (level : Option ℚ)
    (mute : Option Bool) (inputs0 : List String) (pstate : String)
    (li : Option Int) (rj hc : Option Bool) (pid : Int) (su : Bool)
    (opt : String) (intensity pid0 : Option Int) (cd : Option Payload) :
    LockSerialized (async_update_data st0 env).2.2 ∧
    LockSerialized (set_volume level mute) ∧
    LockSerialized (set_inputs inputs0) ∧
    LockSerialized (set_power_state pstate) ∧
    LockSerialized (set_led_settings li rj hc) ∧
    LockSerialized (restore_profile pid su) ∧
    LockSerialized (async_select_option_power opt) ∧
    LockSerialized (handle_set_led_intensity intensity cd).2 ∧
    LockSerialized (handle_restore_profile pid0 su cd).2 := by
  refine ⟨poll_trace_serial st0 env, ?_, ?_, ?_, ?_, ?_, ?_, ?_, ?_⟩
  · unfold set_volume
    rcases level with _ | l <;> rcases mute with _ | m <;>
      first
        | exact LockSerialized.nil
        | exact lockSerialized_request _ _
  · exact lockSerialized_request _ _
  · exact lockSerialized_request _ _
  · unfold set_led_settings
    rcases li with _ | a <;> rcases rj with _ | b <;> rcases hc with _ | c <;>
      first
        | exact LockSerialized.nil
        | exact lockSerialized_request _ _
  · exact lockSerialized_request _ _
  · unfold async_select_option_power
    cases lookupKey POWER_STATE_OPTION_TO_API opt with
    | none => exact LockSerialized.nil
    | some api =>
      dsimp only
      split
      · exact lockSerialized_request _ _
      · exact LockSerialized.nil
  · unfold handle_set_led_intensity
    cases intensity with
    | none => exact LockSerialized.nil
    | some i =>
      dsimp only
      cases cd with
      | none => exact lockSerialized_request _ _
      | some d =>
        dsimp only
        split <;> exact lockSerialized_request _ _
  · unfold handle_restore_profile
    cases pid0 with
    | none => exact LockSerialized.nil
    | some pid1 =>
      dsimp only
      split
      · exact LockSerialized.nil
      · cases cd with
        | none => exact lockSerialized_request _ _
        | some d =>
          dsimp only
          split <;> exact lockSerialized_request _ _

/-- Prefixing the full core order onto a rare-order subsequence stays
within the master poll order. -/
theorem core4_append_sublist {l : List Ep}
    (h : List.Sublist l
      [Ep.deviceInfo, Ep.deviceId, Ep.led, Ep.networkIpv4, Ep.aoipIpv4,
       Ep.aoipIdentity, Ep.zoneInfo, Ep.profileList]) :
    List.Sublist ([Ep.volume, Ep.power, Ep.inputs, Ep.events] ++ l) pollOrder :=
  List.Sublist.append (List.Sublist.refl _) h

/-- Prefixing the events-free core order onto a rare-order subsequence
stays within the master poll order. -/
theorem core3_append_sublist {l : List Ep}
    (h : List.Sublist l
      [Ep.deviceInfo, Ep.deviceId, Ep.led, Ep.networkIpv4, Ep.aoipIpv4,
       Ep.aoipIdentity, Ep.zoneInfo, Ep.profileList]) :
    List.Sublist ([Ep.volume, Ep.power, Ep.inputs] ++ l) pollOrder :=
  List.Sublist.append
    (by decide : List.Sublist [Ep.volume, Ep.power, Ep.inputs]
      [Ep.volume, Ep.power, Ep.inputs, Ep.events]) h

/-- C5: within every poll cycle the requests are issued one at a time
(the trace is a serial event list) and in the fixed order volume, power
state, inputs, events when due, then the still-uncached rarely-changing
endpoints in the order device info, device id, LED settings, network
config, AoIP IPv4, AoIP identity, zone info, profile list: the endpoint
sequence of every cycle's trace is an ordered, duplicate-free
subsequence of that master order. -/
theorem genelec_C5 (st : DataSt) (env : Env) :
    List.Sublist (httpEps (async_update_data st env).2.2) pollOrder := by
  simp only [async_update_data]
  cases env Ep.volume with
  | error u => dsimp only; decide
  | ok v =>
    cases env Ep.power with
    | error u => dsimp only; decide
    | ok p =>
      cases env Ep.inputs with
      | error u => dsimp only; decide
      | ok i =>
        dsimp only
        split
        · cases env Ep.events with
          | error u => dsimp only; decide
          | ok e =>
            simp only [pollFinish, httpEps_append]
            exact core4_append_sublist (pollRare_httpEps _ _)
        · simp only [pollFinish, httpEps_append]
          exact core3_append_sublist (pollRare_httpEps _ _)

/-! Characterization of the eight guarded steps: each one changes only
its own field(s), and stores the fetched body when its guard was open
and the fetch succeeded. -/

/-- The device-info step writes only `device_info`, and stores the body
on a successful due fetch. -/
theorem stepDeviceInfo_full (st : DataSt) (env : Env) :
    ∃ d, (stepDeviceInfo st env).1 = { st with device_info := d } ∧
      (st.device_info.isEmpty = true → ∀ x, env Ep.deviceInfo = Except.ok x →
        d = x) := by
  unfold stepDeviceInfo guardedFetch
  split
  next hguard =>
    cases h : env Ep.deviceInfo with
    | ok x =>
      exact ⟨x, rfl, fun _ y hy => Except.ok.inj hy⟩
    | error u =>
      refine ⟨st.device_info, rfl, fun hg y hy => ?_⟩
      exact Except.noConfusion hy
  next hguard =>
    exact ⟨st.device_info, rfl, fun hg y hy => absurd hg hguard⟩

/-- The device-id step writes only `device_id`, and stores the body on
a successful due fetch. -/
theorem stepDeviceId_full (st : DataSt) (env : Env) :
    ∃ d, (stepDeviceId st env).1 = { st with device_id := d } ∧
      (st.device_id.isEmpty = true → ∀ x, env Ep.deviceId = Except.ok x →
        d = x) := by
  unfold stepDeviceId guardedFetch
  split
  next hguard =>
    cases h : env Ep.deviceId with
    | ok x =>
      exact ⟨x, rfl, fun _ y hy => Except.ok.inj hy⟩
    | error u =>
      refine ⟨st.device_id, rfl, fun hg y hy => ?_⟩
      exact Except.noConfusion hy
  next hguard =>
    exact ⟨st.device_id, rfl, fun hg y hy => absurd hg hguard⟩

/-- The LED step writes only `led_data` and `led_initialized`, and
stores the body on a successful first attempt. -/
theorem stepLed_full (st : DataSt) (env : Env) :
    ∃ l b, (stepLed st env).1 = { st with led_data := l, led_initialized := b } ∧
      (st.led_initialized = false → ∀ x, env Ep.led = Except.ok x → l = x) := by
  unfold stepLed guardedFetch
  split
  next hguard =>
    cases h : env Ep.led with
    | ok x =>
      exact ⟨x, true, rfl,
        fun _ y hy => Except.ok.inj hy⟩
    | error u =>
      refine ⟨st.led_data, true, rfl, fun hg y hy => ?_⟩
      exact Except.noConfusion hy
  next hguard =>
    refine ⟨st.led_data, st.led_initialized, rfl, fun hg y hy => ?_⟩
    exact absurd (by simp [hg]) hguard

/-- The network step writes only `network_config`, and stores the body
on a successful due fetch. -/
theorem stepNetwork_full (st : DataSt) (env : Env) :
    ∃ d, (stepNetwork st env).1 = { st with network_config := d } ∧
      (st.network_config.isEmpty = true → ∀ x, env Ep.networkIpv4 = Except.ok x →
        d = x) := by
  unfold stepNetwork guardedFetch
  split
  next hguard =>
    cases h : env Ep.networkIpv4 with
    | ok x =>
      exact ⟨x, rfl, fun _ y hy => Except.ok.inj hy⟩
    | error u =>
      refine ⟨[], rfl, fun hg y hy => ?_⟩
      exact Except.noConfusion hy
  next hguard =>
    exact ⟨st.network_config, rfl, fun hg y hy => absurd hg hguard⟩

/-- The AoIP-IPv4 step writes only `aoip_ipv4`, and stores the body on
a successful due fetch. -/
theorem stepAoipIpv4_full (st : DataSt) (env : Env) :
    ∃ d, (stepAoipIpv4 st env).1 = { st with aoip_ipv4 := d } ∧
      (st.aoip_ipv4.isEmpty = true → ∀ x, env Ep.aoipIpv4 = Except.ok x →
        d = x) := by
  unfold stepAoipIpv4 guardedFetch
  split
  next hguard =>
    cases h : env Ep.aoipIpv4 with
    | ok x =>
      exact ⟨x, rfl, fun _ y hy => Except.ok.inj hy⟩
    | error u =>
      refine ⟨[], rfl, fun hg y hy => ?_⟩
      exact Except.noConfusion hy
  next hguard =>
    exact ⟨st.aoip_ipv4, rfl, fun hg y hy => absurd hg hguard⟩

/-- The AoIP-identity step writes only `aoip_identity`, and stores the
body on a successful due fetch. -/
theorem stepAoipIdentity_full (st : DataSt) (env : Env) :
    ∃ d, (stepAoipIdentity st env).1 = { st with aoip_identity := d } ∧
      (st.aoip_identity.isEmpty = true → ∀ x, env Ep.aoipIdentity = Except.ok x →
        d = x) := by
  unfold stepAoipIdentity guardedFetch
  split
  next hguard =>
    cases h : env Ep.aoipIdentity with
    | ok x =>
      exact ⟨x, rfl, fun _ y hy => Except.ok.inj hy⟩
    | error u =>
      refine ⟨[], rfl, fun hg y hy => ?_⟩
      exact Except.noConfusion hy
  next hguard =>
    exact ⟨st.aoip_identity, rfl, fun hg y hy => absurd hg hguard⟩

/-- The zone step writes only `zone_info`, and stores the body on a
successful due fetch. -/
theorem stepZone_full (st : DataSt) (env : Env) :
    ∃ d, (stepZone st env).1 = { st with zone_info := d } ∧
      (st.zone_info.isEmpty = true → ∀ x, env Ep.zoneInfo = Except.ok x →
        d = x) := by
  unfold stepZone guardedFetch
  split
  next hguard =>
    cases h : env Ep.zoneInfo with
    | ok x =>
      exact ⟨x, rfl, fun _ y hy => Except.ok.inj hy⟩
    | error u =>
      refine ⟨[], rfl, fun hg y hy => ?_⟩
      exact Except.noConfusion hy
  next hguard =>
    exact ⟨st.zone_info, rfl, fun hg y hy => absurd hg hguard⟩

/-- The profile-list step writes only `profile_list`, and stores the
body on a successful due fetch. -/
theorem stepProfileList_full (st : DataSt) (env : Env) :
    ∃ d, (stepProfileList st env).1 = { st with profile_list := d } ∧
      (st.profile_list.isEmpty = true → ∀ x, env Ep.profileList = Except.ok x →
        d = x) := by
  unfold stepProfileList guardedFetch
  split
  next hguard =>
    cases h : env Ep.profileList with
    | ok x =>
      exact ⟨x, rfl, fun _ y hy => Except.ok.inj hy⟩
    | error u =>
      refine ⟨[], rfl, fun hg y hy => ?_⟩
      exact Except.noConfusion hy
  next hguard =>
    exact ⟨st.profile_list, rfl, fun hg y hy => absurd hg hguard⟩

/-- Every rarely-changing endpoint whose cache guard was open and whose
fetch succeeded ends the guarded section with the fetched body stored
in its cache field. -/
theorem pollRare_spec (st : DataSt) (env : Env) :
    (st.device_info.isEmpty = true → ∀ d, env Ep.deviceInfo = Except.ok d →
      (pollRare st env).1.device_info = d) ∧
    (st.device_id.isEmpty = true → ∀ d, env Ep.deviceId = Except.ok d →
      (pollRare st env).1.device_id = d) ∧
    (st.led_initialized = false → ∀ d, env Ep.led = Except.ok d →
      (pollRare st env).1.led_data = d) ∧
    (st.network_config.isEmpty = true → ∀ d, env Ep.networkIpv4 = Except.ok d →
      (pollRare st env).1.network_config = d) ∧
    (st.aoip_ipv4.isEmpty = true → ∀ d, env Ep.aoipIpv4 = Except.ok d →
      (pollRare st env).1.aoip_ipv4 = d) ∧
    (st.aoip_identity.isEmpty = true → ∀ d, env Ep.aoipIdentity = Except.ok d →
      (pollRare st env).1.aoip_identity = d) ∧
    (st.zone_info.isEmpty = true → ∀ d, env Ep.zoneInfo = Except.ok d →
      (pollRare st env).1.zone_info = d) ∧
    (st.profile_list.isEmpty = true → ∀ d, env Ep.profileList = Except.ok d →
      (pollRare st env).1.profile_list = d) := by
  simp only [pollRare]
  set s1 := (stepDeviceInfo st env).1 with hs1def
  set s2 := (stepDeviceId s1 env).1 with hs2def
  set s3 := (stepLed s2 env).1 with hs3def
  set s4 := (stepNetwork s3 env).1 with hs4def
  set s5 := (stepAoipIpv4 s4 env).1 with hs5def
  set s6 := (stepAoipIdentity s5 env).1 with hs6def
  set s7 := (stepZone s6 env).1 with hs7def
  set s8 := (stepProfileList s7 env).1 with hs8def
  obtain ⟨d1, e1, f1⟩ := stepDeviceInfo_full st env
  rw [← hs1def] at e1
  obtain ⟨d2, e2, f2⟩ := stepDeviceId_full s1 env
  rw [← hs2def] at e2
  obtain ⟨l3, b3, e3, f3⟩ := stepLed_full s2 env
  rw [← hs3def] at e3
  obtain ⟨d4, e4, f4⟩ := stepNetwork_full s3 env
  rw [← hs4def] at e4
  obtain ⟨d5, e5, f5⟩ := stepAoipIpv4_full s4 env
  rw [← hs5def] at e5
  obtain ⟨d6, e6, f6⟩ := stepAoipIdentity_full s5 env
  rw [← hs6def] at e6
  obtain ⟨d7, e7, f7⟩ := stepZone_full s6 env
  rw [← hs7def] at e7
  obtain ⟨d8, e8, f8⟩ := stepProfileList_full s7 env
  rw [← hs8def] at e8
  have hInfo2 : s2.device_info = s1.device_info := by rw [e2]
  have hInfo3 : s3.device_info = s2.device_info := by rw [e3]
  have hInfo4 : s4.device_info = s3.device_info := by rw [e4]
  have hInfo5 : s5.device_info = s4.device_info := by rw [e5]
  have hInfo6 : s6.device_info = s5.device_info := by rw [e6]
  have hInfo7 : s7.device_info = s6.device_info := by rw [e7]
  have hInfo8 : s8.device_info = s7.device_info := by rw [e8]
  have hId1 : s1.device_id = st.device_id := by rw [e1]
  have hId3 : s3.device_id = s2.device_id := by rw [e3]
  have hId4 : s4.device_id = s3.device_id := by rw [e4]
  have hId5 : s5.device_id = s4.device_id := by rw [e5]
  have hId6 : s6.device_id = s5.device_id := by rw [e6]
  have hId7 : s7.device_id = s6.device_id := by rw [e7]
  have hId8 : s8.device_id = s7.device_id := by rw [e8]
  have hLi1 : s1.led_initialized = st.led_initialized := by rw [e1]
  have hLi2 : s2.led_initialized = s1.led_initialized := by rw [e2]
  have hLed4 : s4.led_data = s3.led_data := by rw [e4]
  have hLed5 : s5.led_data = s4.led_data := by rw [e5]
  have hLed6 : s6.led_data = s5.led_data := by rw [e6]
  have hLed7 : s7.led_data = s6.led_data := by rw [e7]
  have hLed8 : s8.led_data = s7.led_data := by rw [e8]
  have hNet1 : s1.network_config = st.network_config := by rw [e1]
  have hNet2 : s2.network_config = s1.network_config := by rw [e2]
  have hNet3 : s3.network_config = s2.network_config := by rw [e3]
  have hNet5 : s5.network_config = s4.network_config := by rw [e5]
  have hNet6 : s6.network_config = s5.network_config := by rw [e6]
  have hNet7 : s7.network_config = s6.network_config := by rw [e7]
  have hNet8 : s8.network_config = s7.network_config := by rw [e8]
  have hAi1 : s1.aoip_ipv4 = st.aoip_ipv4 := by rw [e1]
  have hAi2 : s2.aoip_ipv4 = s1.aoip_ipv4 := by rw [e2]
  have hAi3 : s3.aoip_ipv4 = s2.aoip_ipv4 := by rw [e3]
  have hAi4 : s4.aoip_ipv4 = s3.aoip_ipv4 := by rw [e4]
  have hAi6 : s6.aoip_ipv4 = s5.aoip_ipv4 := by rw [e6]
  have hAi7 : s7.aoip_ipv4 = s6.aoip_ipv4 := by rw [e7]
  have hAi8 : s8.aoip_ipv4 = s7.aoip_ipv4 := by rw [e8]
  have hAd1 : s1.aoip_identity = st.aoip_identity := by rw [e1]
  have hAd2 : s2.aoip_identity = s1.aoip_identity := by rw [e2]
  have hAd3 : s3.aoip_identity = s2.aoip_identity := by rw [e3]
  have hAd4 : s4.aoip_identity = s3.aoip_identity := by rw [e4]
  have hAd5 : s5.aoip_identity = s4.aoip_identity := by rw [e5]
  have hAd7 : s7.aoip_identity = s6.aoip_identity := by rw [e7]
  have hAd8 : s8.aoip_identity = s7.aoip_identity := by rw [e8]
  have hZ1 : s1.zone_info = st.zone_info := by rw [e1]
  have hZ2 : s2.zone_info = s1.zone_info := by rw [e2]
  have hZ3 : s3.zone_info = s2.zone_info := by rw [e3]
  have hZ4 : s4.zone_info = s3.zone_info := by rw [e4]
  have hZ5 : s5.zone_info = s4.zone_info := by rw [e5]
  have hZ6 : s6.zone_info = s5.zone_info := by rw [e6]
  have hZ8 : s8.zone_info = s7.zone_info := by rw [e8]
  have hP1 : s1.profile_list = st.profile_list := by rw [e1]
  have hP2 : s2.profile_list = s1.profile_list := by rw [e2]
  have hP3 : s3.profile_list = s2.profile_list := by rw [e3]
  have hP4 : s4.profile_list = s3.profile_list := by rw [e4]
  have hP5 : s5.profile_list = s4.profile_list := by rw [e5]
  have hP6 : s6.profile_list = s5.profile_list := by rw [e6]
  have hP7 : s7.profile_list = s6.profile_list := by rw [e7]
  refine ⟨?_, ?_, ?_, ?_, ?_, ?_, ?_, ?_⟩
  · intro hg d hd
    rw [hInfo8, hInfo7, hInfo6, hInfo5, hInfo4, hInfo3, hInfo2, e1]
    exact f1 hg d hd
  · intro hg d hd
    rw [hId8, hId7, hId6, hId5, hId4, hId3, e2]
    exact f2 (by rw [hId1]; exact hg) d hd
  · intro hg d hd
    rw [hLed8, hLed7, hLed6, hLed5, hLed4, e3]
    exact f3 (by rw [hLi2, hLi1]; exact hg) d hd
  · intro hg d hd
    rw [hNet8, hNet7, hNet6, hNet5, e4]
    exact f4 (by rw [hNet3, hNet2, hNet1]; exact hg) d hd
  · intro hg d hd
    rw [hAi8, hAi7, hAi6, e5]
    exact f5 (by rw [hAi4, hAi3, hAi2, hAi1]; exact hg) d hd
  · intro hg d hd
    rw [hAd8, hAd7, e6]
    exact f6 (by rw [hAd5, hAd4, hAd3, hAd2, hAd1]; exact hg) d hd
  · intro hg d hd
    rw [hZ8, e7]
    exact f7 (by rw [hZ6, hZ5, hZ4, hZ3, hZ2, hZ1]; exact hg) d hd
  · intro hg d hd
    rw [e8]
    exact f8 (by rw [hP7, hP6, hP5, hP4, hP3, hP2, hP1]; exact hg) d hd

/-! Lookups into the success-path payload. -/

/-- The merged payload maps `volume` to the fresh volume body. -/
theorem freshPayload_volume (v p i e : Obj) (st : DataSt) :
    lookupKey (freshPayload v p i e st) "volume" = some v := rfl

/-- The merged payload maps `power` to the fresh power body. -/
theorem freshPayload_power (v p i e : Obj) (st : DataSt) :
    lookupKey (freshPayload v p i e st) "power" = some p := rfl

/-- The merged payload maps `inputs` to the fresh inputs body. -/
theorem freshPayload_inputs (v p i e : Obj) (st : DataSt) :
    lookupKey (freshPayload v p i e st) "inputs" = some i := rfl

/-- The merged payload maps `events` to the events body of the cycle. -/
theorem freshPayload_events (v p i e : Obj) (st : DataSt) :
    lookupKey (freshPayload v p i e st) "events" = some e := rfl

/-- The merged payload maps `device_info` to the cached device info. -/
theorem freshPayload_device_info (v p i e : Obj) (st : DataSt) :
    lookupKey (freshPayload v p i e st) "device_info" = some st.device_info := rfl

/-- The merged payload maps `device_id` to the cached device id. -/
theorem freshPayload_device_id (v p i e : Obj) (st : DataSt) :
    lookupKey (freshPayload v p i e st) "device_id" = some st.device_id := rfl

/-- The merged payload maps `led` to the cached LED settings. -/
theorem freshPayload_led (v p i e : Obj) (st : DataSt) :
    lookupKey (freshPayload v p i e st) "led" = some st.led_data := rfl

/-- The merged payload maps `network_ipv4` to the cached network config. -/
theorem freshPayload_network (v p i e : Obj) (st : DataSt) :
    lookupKey (freshPayload v p i e st) "network_ipv4" = some st.network_config := rfl

/-- The merged payload maps `aoip_ipv4` to the cached AoIP IPv4 data. -/
theorem freshPayload_aoip_ipv4 (v p i e : Obj) (st : DataSt) :
    lookupKey (freshPayload v p i e st) "aoip_ipv4" = some st.aoip_ipv4 := rfl

/-- The merged payload maps `aoip_identity` to the cached AoIP identity. -/
theorem freshPayload_aoip_identity (v p i e : Obj) (st : DataSt) :
    lookupKey (freshPayload v p i e st) "aoip_identity" = some st.aoip_identity := rfl

/-- The merged payload maps `zone_info` to the cached zone info. -/
theorem freshPayload_zone (v p i e : Obj) (st : DataSt) :
    lookupKey (freshPayload v p i e st) "zone_info" = some st.zone_info := rfl

/-- The merged payload maps `profile_list` to the cached profile list. -/
theorem freshPayload_profile (v p i e : Obj) (st : DataSt) :
    lookupKey (freshPayload v p i e st) "profile_list" = some st.profile_list := rfl

/-- C2 counterexample: with the old cached volume `objA`, a cycle in
which the volume fetch succeeds with the fresh body `objB` but the
single power fetch fails still completes, yet its merged payload maps
`volume` to the stale cached `objA`, not to the fresh result fetched in
that same cycle — so one endpoint failure does deprive the other
fetched endpoints of their fresh contribution. -/
theorem genelec_C2_cex :
    envC2 Ep.volume = Except.ok objB ∧
    envC2 Ep.power = Except.error () ∧
    Ep.volume ∈ httpEps (async_update_data baseSt envC2).2.2 ∧
    lookupKey (async_update_data baseSt envC2).2.1 "volume" = some objA ∧
    objA ≠ objB :=
  ⟨rfl, rfl, by decide, by decide, by decide⟩

/-- C2 amended: partial-failure tolerance is per-endpoint only for the
guarded rarely-changing fetches.  When the four unguarded core fetches
(volume, power, inputs, events) succeed, the cycle completes with the
fresh core bodies in the merged payload regardless of which
rarely-changing fetches fail, and every rarely-changing endpoint whose
cache guard was open and whose fetch succeeded contributes its fresh
result; a failure of volume, power, inputs, or a due events fetch
instead aborts the cycle and every field falls back to its cache. -/
theorem genelec_C2_amended (st : DataSt) (env : Env) (v p i e : Obj)
    (hv : env Ep.volume = Except.ok v) (hp : env Ep.power = Except.ok p)
    (hi : env Ep.inputs = Except.ok i) (he : env Ep.events = Except.ok e) :
    lookupKey (async_update_data st env).2.1 "volume" = some v ∧
    lookupKey (async_update_data st env).2.1 "power" = some p ∧
    lookupKey (async_update_data st env).2.1 "inputs" = some i ∧
    (eventsDue { st with poll_tick := st.poll_tick + 1 } = true →
      lookupKey (async_update_data st env).2.1 "events" = some e) ∧
    (eventsDue { st with poll_tick := st.poll_tick + 1 } = false →
      lookupKey (async_update_data st env).2.1 "events" = some st.events_data) ∧
    (st.device_info.isEmpty = true → ∀ d, env Ep.deviceInfo = Except.ok d →
      lookupKey (async_update_data st env).2.1 "device_info" = some d) ∧
    (st.device_id.isEmpty = true → ∀ d, env Ep.deviceId = Except.ok d →
      lookupKey (async_update_data st env).2.1 "device_id" = some d) ∧
    (st.led_initialized = false → ∀ d, env Ep.led = Except.ok d →
      lookupKey (async_update_data st env).2.1 "led" = some d) ∧
    (st.network_config.isEmpty = true → ∀ d, env Ep.networkIpv4 = Except.ok d →
      lookupKey (async_update_data st env).2.1 "network_ipv4" = some d) ∧
    (st.aoip_ipv4.isEmpty = true → ∀ d, env Ep.aoipIpv4 = Except.ok d →
      lookupKey (async_update_data st env).2.1 "aoip_ipv4" = some d) ∧
    (st.aoip_identity.isEmpty = true → ∀ d, env Ep.aoipIdentity = Except.ok d →
      lookupKey (async_update_data st env).2.1 "aoip_identity" = some d) ∧
    (st.zone_info.isEmpty = true → ∀ d, env Ep.zoneInfo = Except.ok d →
      lookupKey (async_update_data st env).2.1 "zone_info" = some d) ∧
    (st.profile_list.isEmpty = true → ∀ d, env Ep.profileList = Except.ok d →
      lookupKey (async_update_data st env).2.1 "profile_list" = some d) := by
  simp only [async_update_data, hv, hp, hi, pollFinish]
  split
  next hdue =>
    simp only [he]
    refine ⟨freshPayload_volume _ _ _ _ _, freshPayload_power _ _ _ _ _,
      freshPayload_inputs _ _ _ _ _, fun _ => freshPayload_events _ _ _ _ _,
      ?_, ?_, ?_, ?_, ?_, ?_, ?_, ?_, ?_⟩
    · intro hf
      rw [hf] at hdue
      exact Bool.noConfusion hdue
    · intro hg d hd
      rw [freshPayload_device_info]
      refine congrArg some ((pollRare_spec _ env).1 ?_ d hd)
      exact hg
    · intro hg d hd
      rw [freshPayload_device_id]
      refine congrArg some ((pollRare_spec _ env).2.1 ?_ d hd)
      exact hg
    · intro hg d hd
      rw [freshPayload_led]
      refine congrArg some ((pollRare_spec _ env).2.2.1 ?_ d hd)
      exact hg
    · intro hg d hd
      rw [freshPayload_network]
      refine congrArg some ((pollRare_spec _ env).2.2.2.1 ?_ d hd)
      exact hg
    · intro hg d hd
      rw [freshPayload_aoip_ipv4]
      refine congrArg some ((pollRare_spec _ env).2.2.2.2.1 ?_ d hd)
      exact hg
    · intro hg d hd
      rw [freshPayload_aoip_identity]
      refine congrArg some ((pollRare_spec _ env).2.2.2.2.2.1 ?_ d hd)
      exact hg
    · intro hg d hd
      rw [freshPayload_zone]
      refine congrArg some ((pollRare_spec _ env).2.2.2.2.2.2.1 ?_ d hd)
      exact hg
    · intro hg d hd
      rw [freshPayload_profile]
      refine congrArg some ((pollRare_spec _ env).2.2.2.2.2.2.2 ?_ d hd)
      exact hg
  next hdue =>
    refine ⟨freshPayload_volume _ _ _ _ _, freshPayload_power _ _ _ _ _,
      freshPayload_inputs _ _ _ _ _, fun hdue2 => absurd hdue2 hdue,
      fun _ => freshPayload_events _ _ _ _ _,
      ?_, ?_, ?_, ?_, ?_, ?_, ?_, ?_⟩
    · intro hg d hd
      rw [freshPayload_device_info]
      refine congrArg some ((pollRare_spec _ env).1 ?_ d hd)
      exact hg
    · intro hg d hd
      rw [freshPayload_device_id]
      refine congrArg some ((pollRare_spec _ env).2.1 ?_ d hd)
      exact hg
    · intro hg d hd
      rw [freshPayload_led]
      refine congrArg some ((pollRare_spec _ env).2.2.1 ?_ d hd)
      exact hg
    · intro hg d hd
      rw [freshPayload_network]
      refine congrArg some ((pollRare_spec _ env).2.2.2.1 ?_ d hd)
      exact hg
    · intro hg d hd
      rw [freshPayload_aoip_ipv4]
      refine congrArg some ((pollRare_spec _ env).2.2.2.2.1 ?_ d hd)
      exact hg
    · intro hg d hd
      rw [freshPayload_aoip_identity]
      refine congrArg some ((pollRare_spec _ env).2.2.2.2.2.1 ?_ d hd)
      exact hg
    · intro hg d hd
      rw [freshPayload_zone]
      refine congrArg some ((pollRare_spec _ env).2.2.2.2.2.2.1 ?_ d hd)
      exact hg
    · intro hg d hd
      rw [freshPayload_profile]
      refine congrArg some ((pollRare_spec _ env).2.2.2.2.2.2.2 ?_ d hd)
      exact hg

/-- C2 witness: a cycle with every fetch succeeding fresh (`objB`) and
the device-info cache empty delivers the fresh volume and device info
in the merged payload. -/
theorem genelec_C2_witness :
    lookupKey (async_update_data stW2 envW2).2.1 "volume" = some objB ∧
    lookupKey (async_update_data stW2 envW2).2.1 "device_info" = some objB :=
  ⟨(genelec_C2_amended stW2 envW2 objB objB objB objB rfl rfl rfl rfl).1,
   (genelec_C2_amended stW2 envW2 objB objB objB objB rfl rfl rfl rfl).2.2.2.2.2.1
     (by decide) objB rfl⟩

/-- C3 counterexample: an error does occur during the poll cycle (the
zone-info fetch fails and its request was issued), yet the update
function returns the fresh volume body, not the last-known cached
value, and the shared volume cache changes across the cycle — so the
claimed fallback-and-unchanged-caches behavior does not hold for every
error, only for errors of the four unguarded core fetches. -/
theorem genelec_C3_cex :
    envC3 Ep.zoneInfo = Except.error () ∧
    Ep.zoneInfo ∈ httpEps (async_update_data stC3 envC3).2.2 ∧
    lookupKey (async_update_data stC3 envC3).2.1 "volume" = some objB ∧
    objB ≠ stC3.volume_data ∧
    (async_update_data stC3 envC3).1.volume_data ≠ stC3.volume_data :=
  ⟨rfl, by decide, by decide, by decide, by decide⟩

/-- C3 amended: on any error in the unguarded volume, power, inputs, or
due events fetch — exactly the errors that reach the update function's
exception handlers — the function does not raise: it returns the
last-known cached values for all twelve fields, and the shared caches
hold the same values after the failed cycle as before it (only the poll
tick advances).  Errors in the guarded rarely-changing fetches are
logged without aborting the cycle, which then returns fresh core
values. -/
theorem genelec_C3_amended (st : DataSt) (env : Env)
    (h : coreAborts st env = true) :
    (async_update_data st env).1 = { st with poll_tick := st.poll_tick + 1 } ∧
    (async_update_data st env).2.1 =
      cachedPayload { st with poll_tick := st.poll_tick + 1 } := by
  simp only [async_update_data]
  cases hv : env Ep.volume with
  | error u => exact ⟨rfl, rfl⟩
  | ok v =>
    cases hp : env Ep.power with
    | error u => exact ⟨rfl, rfl⟩
    | ok p =>
      cases hi : env Ep.inputs with
      | error u => exact ⟨rfl, rfl⟩
      | ok i =>
        dsimp only
        split
        next hdue =>
          cases he : env Ep.events with
          | error u => exact ⟨rfl, rfl⟩
          | ok e =>
            exfalso
            unfold coreAborts at h
            rw [hv, hp, hi, he] at h
            simp only [isErr, Bool.or_false, Bool.false_or,
              Bool.and_false] at h
            exact Bool.noConfusion h
        next hdue =>
          exfalso
          unfold coreAborts at h
          rw [hv, hp, hi] at h
          simp only [isErr, Bool.false_or, Bool.and_eq_true] at h
          exact hdue h.1

/-- C3 witness: when every fetch fails, the cycle returns exactly the
cached payload of the (tick-incremented) previous state. -/
theorem genelec_C3_witness :
    (async_update_data baseSt envW3).2.1 =
      cachedPayload { baseSt with poll_tick := baseSt.poll_tick + 1 } :=
  (genelec_C3_amended baseSt envW3 (by decide)).2

/-- C4: with the network-config cache empty, a cycle whose network
fetch fails stores the falsy empty dict (the code comment claims this
prevents repeated attempts), and the very next cycle issues the
network-config request again — contradicting both the claim and the
code's own comment, which is why this is recorded as a code bug. -/
theorem genelec_C4_bug :
    isErr (envC4 Ep.networkIpv4) = true ∧
    Ep.networkIpv4 ∈ httpEps (async_update_data stC4 envC4).2.2 ∧
    Ep.networkIpv4 ∈
      httpEps (async_update_data (async_update_data stC4 envC4).1 envC4).2.2 :=
  ⟨rfl, by decide, by decide⟩

/-- An empty dict has no bindings. -/
theorem lookup_of_isEmpty {α : Type} (d : List (String × α)) (k : String)
    (h : d.isEmpty = true) : lookupKey d k = none := by
  cases d with
  | nil => rfl
  | cons hd tl => simp [List.isEmpty] at h

/-- C6: every optimistic cache patch — the power-state select, the
profile select, the two LED switches, and the `set_led_intensity` and
`restore_profile` services — changes only the field(s) it writes inside
its own top-level key: every other top-level key of the payload, and
every other field of the patched key, keeps the value it had before. -/
theorem genelec_C6 (data : Payload) (state : String) (pid intensity : Int)
    (b c su : Bool) :
    (∀ k, k ≠ "power" →
      lookupKey (push_power_patch data state) k = lookupKey data k) ∧
    (∀ f, f ≠ "state" →
      lookupKey (dictGet (push_power_patch data state) "power") f =
        lookupKey (dictGet data "power") f) ∧
    (∀ k, k ≠ "profile_list" →
      lookupKey (push_profile_patch data pid) k = lookupKey data k) ∧
    (∀ f, f ≠ "selected" →
      lookupKey (dictGet (push_profile_patch data pid) "profile_list") f =
        lookupKey (dictGet data "profile_list") f) ∧
    (∀ k, k ≠ "led" →
      lookupKey (push_led_patch data [("rj45Leds", Prim.bool b)]) k =
        lookupKey data k) ∧
    (∀ f, f ≠ "rj45Leds" →
      lookupKey (dictGet (push_led_patch data [("rj45Leds", Prim.bool b)]) "led") f =
        lookupKey (dictGet data "led") f) ∧
    (∀ k, k ≠ "led" →
      lookupKey (push_led_patch data [("hideClip", Prim.bool c)]) k =
        lookupKey data k) ∧
    (∀ f, f ≠ "hideClip" →
      lookupKey (dictGet (push_led_patch data [("hideClip", Prim.bool c)]) "led") f =
        lookupKey (dictGet data "led") f) ∧
    (∀ k, k ≠ "led" →
      lookupKey (set_led_intensity_patch data intensity) k = lookupKey data k) ∧
    (∀ f, f ≠ "ledIntensity" →
      lookupKey (dictGet (set_led_intensity_patch data intensity) "led") f =
        lookupKey (dictGet data "led") f) ∧
    (∀ k, k ≠ "profile_list" →
      lookupKey (restore_profile_patch data pid su) k = lookupKey data k) ∧
    (∀ f, f ≠ "selected" → f ≠ "startup" →
      lookupKey (dictGet (restore_profile_patch data pid su) "profile_list") f =
        lookupKey (dictGet data "profile_list") f) := by
  refine ⟨?_, ?_, ?_, ?_, ?_, ?_, ?_, ?_, ?_, ?_, ?_, ?_⟩
  · intro k hk
    exact lookup_insert_ne _ _ _ _ hk
  · intro f hf
    have h1 : dictGet (push_power_patch data state) "power" =
        insertKey (dictGet data "power") "state" (Prim.str state) := by
      unfold push_power_patch dictGet
      rw [lookup_insert_self]
      rfl
    rw [h1, lookup_insert_ne _ _ _ _ hf]
  · intro k hk
    exact lookup_insert_ne _ _ _ _ hk
  · intro f hf
    have h1 : dictGet (push_profile_patch data pid) "profile_list" =
        insertKey (dictGet data "profile_list") "selected" (Prim.int pid) := by
      unfold push_profile_patch dictGet
      rw [lookup_insert_self]
      rfl
    rw [h1, lookup_insert_ne _ _ _ _ hf]
  · intro k hk
    exact lookup_insert_ne _ _ _ _ hk
  · intro f hf
    have h1 : dictGet (push_led_patch data [("rj45Leds", Prim.bool b)]) "led" =
        insertKey (dictGet data "led") "rj45Leds" (Prim.bool b) := by
      unfold push_led_patch dictGet
      rw [lookup_insert_self]
      rfl
    rw [h1, lookup_insert_ne _ _ _ _ hf]
  · intro k hk
    exact lookup_insert_ne _ _ _ _ hk
  · intro f hf
    have h1 : dictGet (push_led_patch data [("hideClip", Prim.bool c)]) "led" =
        insertKey (dictGet data "led") "hideClip" (Prim.bool c) := by
      unfold push_led_patch dictGet
      rw [lookup_insert_self]
      rfl
    rw [h1, lookup_insert_ne _ _ _ _ hf]
  · intro k hk
    exact lookup_insert_ne _ _ _ _ hk
  · intro f hf
    have h1 : dictGet (set_led_intensity_patch data intensity) "led" =
        insertKey (dictGet data "led") "ledIntensity" (Prim.int intensity) := by
      unfold set_led_intensity_patch dictGet
      rw [lookup_insert_self]
      rfl
    rw [h1, lookup_insert_ne _ _ _ _ hf]
  · intro k hk
    exact lookup_insert_ne _ _ _ _ hk
  · intro f hf1 hf2
    cases su with
    | false =>
      have h1 : dictGet (restore_profile_patch data pid false) "profile_list" =
          insertKey (dictGet data "profile_list") "selected" (Prim.int pid) := by
        unfold restore_profile_patch dictGet
        rw [lookup_insert_self]
        rfl
      rw [h1, lookup_insert_ne _ _ _ _ hf1]
    | true =>
      have h1 : dictGet (restore_profile_patch data pid true) "profile_list" =
          insertKey (insertKey (dictGet data "profile_list") "selected"
            (Prim.int pid)) "startup" (Prim.int pid) := by
        unfold restore_profile_patch dictGet
        rw [lookup_insert_self]
        rfl
      rw [h1, lookup_insert_ne _ _ _ _ hf2, lookup_insert_ne _ _ _ _ hf1]

/-- C6 witness: on a concrete payload, patching the power state leaves
the `volume` key and the power dict's `extra` field alone, and a
startup profile restore leaves an unrelated profile field alone. -/
theorem genelec_C6_witness :
    lookupKey (push_power_patch payloadW "STANDBY") "volume" =
      lookupKey payloadW "volume" ∧
    lookupKey (dictGet (push_power_patch payloadW "STANDBY") "power") "extra" =
      lookupKey (dictGet payloadW "power") "extra" ∧
    lookupKey (dictGet (restore_profile_patch payloadW 3 true) "profile_list") "name" =
      lookupKey (dictGet payloadW "profile_list") "name" :=
  ⟨(genelec_C6 payloadW "STANDBY" 3 40 true true true).1 "volume" (by decide),
   (genelec_C6 payloadW "STANDBY" 3 40 true true true).2.1 "extra" (by decide),
   (genelec_C6 payloadW "STANDBY" 3 40 true true
     true).2.2.2.2.2.2.2.2.2.2.2 "name" (by decide) (by decide)⟩

/-- C7 counterexample: on a payload whose power dict is non-empty but
has no `state` key, the polled power state is absent, yet the media
player's initialization path reports ON (its constructor default is
ACTIVE), not the OFF the claim asserts for an absent state. -/
theorem genelec_C7_cex :
    lookupKey (dictGet payloadC7 "power") "state" = none ∧
    init_attr_state payloadC7 = MediaPlayerState.on := by
  exact ⟨rfl, rfl⟩

/-- C7 amended: the refresh path (`async_update`) reports ON exactly
when the polled power state equals ACTIVE and OFF for every other or
absent state (its default is STANDBY); the initialization path
(`_init_from_coordinator_data`) instead defaults to ACTIVE, so it
reports ON exactly when the state is ACTIVE or absent. -/
theorem genelec_C7_amended (payload : Payload) :
    (update_attr_state payload = MediaPlayerState.on ↔
      lookupKey (dictGet payload "power") "state" = some (Prim.str "ACTIVE")) ∧
    (init_attr_state payload = MediaPlayerState.on ↔
      (lookupKey (dictGet payload "power") "state" = some (Prim.str "ACTIVE") ∨
       lookupKey (dictGet payload "power") "state" = none)) := by
  constructor
  · unfold update_attr_state update_power_state
    cases h : lookupKey (dictGet payload "power") "state" with
    | none => decide
    | some v =>
      simp only [Option.getD_some]
      by_cases hv : v = Prim.str "ACTIVE"
      · subst hv
        decide
      · rw [if_neg hv]
        simp [hv]
  · unfold init_attr_state init_power_state
    by_cases hE : (dictGet payload "power").isEmpty = true
    · have hnone := lookup_of_isEmpty _ "state" hE
      rw [if_pos hE]
      simp [hnone]
    · rw [if_neg hE]
      cases h : lookupKey (dictGet payload "power") "state" with
      | none => decide
      | some v =>
        simp only [Option.getD_some]
        by_cases hv : v = Prim.str "ACTIVE"
        · subst hv
          decide
        · rw [if_neg hv]
          simp [hv]

/-- C9: selecting any option of the media player's source list and
mapping the stored API source array back through `_sources_to_display`
returns exactly the selected option. -/
theorem genelec_C9 (s : String) (h : s ∈ source_list) :
    sources_to_display (select_source_api_sources s) = s := by
  fin_cases h <;> decide

/-- C9 witness: the round trip at the `Mix` option. -/
theorem genelec_C9_witness :
    sources_to_display (select_source_api_sources "Mix") = "Mix" :=
  genelec_C9 "Mix" (by decide)

/-- C10: the `restore_profile` service rejects a missing or
out-of-range profile id without sending any request or touching the
cache; for an id within 0..5 it issues exactly the restore request and
patches only the `profile_list` key of the cached payload. -/
theorem genelec_C10 (startup : Bool) (cd : Option Payload) :
    (handle_restore_profile none startup cd = (cd, [])) ∧
    (∀ n : Int, (n < 0 ∨ 5 < n) →
      handle_restore_profile (some n) startup cd = (cd, [])) ∧
    (∀ n : Int, 0 ≤ n → n ≤ 5 →
      Ep.profileRestore ∈ httpEps (handle_restore_profile (some n) startup cd).2 ∧
      (handle_restore_profile (some n) startup cd).1.isSome = cd.isSome ∧
      (∀ d, cd = some d → ∀ k, k ≠ "profile_list" →
        lookupKey ((handle_restore_profile (some n) startup cd).1.getD []) k =
          lookupKey d k)) := by
  refine ⟨rfl, ?_, ?_⟩
  · intro n hn
    unfold handle_restore_profile
    dsimp only
    rw [if_pos (show n < 0 ∨ n > 5 from hn)]
  · intro n h0 h5
    have hn : ¬(n < 0 ∨ n > 5) := by
      rw [not_or]
      exact ⟨not_lt.mpr h0, not_lt.mpr h5⟩
    unfold handle_restore_profile
    dsimp only
    rw [if_neg hn]
    cases cd with
    | none =>
      refine ⟨List.Mem.head _, rfl, ?_⟩
      intro d hd k hk
      exact Option.noConfusion hd
    | some d0 =>
      dsimp only
      split
      next hemp =>
        refine ⟨List.Mem.head _, rfl, ?_⟩
        intro d hd k hk
        cases hd
        rfl
      next hemp =>
        refine ⟨List.Mem.head _, rfl, ?_⟩
        intro d hd k hk
        cases hd
        unfold restore_profile_patch
        exact lookup_insert_ne _ _ _ _ hk

/-- C10 witness: the service at a concrete payload — id 7 is rejected
untouched, id 3 issues the restore request and leaves the `volume` key
of the cache unchanged. -/
theorem genelec_C10_witness :
    handle_restore_profile (some 7) false (some payloadW) =
      (some payloadW, []) ∧
    Ep.profileRestore ∈
      httpEps (handle_restore_profile (some 3) false (some payloadW)).2 ∧
    lookupKey ((handle_restore_profile (some 3) false
      (some payloadW)).1.getD []) "volume" = lookupKey payloadW "volume" :=
  ⟨(genelec_C10 false (some payloadW)).2.1 7 (by decide),
   ((genelec_C10 false (some payloadW)).2.2 3 (by decide) (by decide)).1,
   ((genelec_C10 false (some payloadW)).2.2 3 (by decide) (by decide)).2.2
     payloadW rfl "volume" (by decide)⟩

end Genelec
